import Mathlib

/-!
Shallow embedding of the transesophageal-echo-simulator core
(geometry primitives, plane-triangle intersection, the real-time
section-update service with its cache, and the section-visualization
service), translated from the TypeScript sources.

Numbers are embedded as exact rationals.  The one operation that has no
exact rational counterpart, Math.sqrt, is passed explicitly as a function
parameter named sq; theorems that depend on properties of the square root
state those properties as hypotheses on sq, and witnesses instantiate sq
with a concrete function satisfying them at the inputs used.
-/

namespace EchoSim

/-- The default floating tolerance 1e-10 used throughout the sources. -/
def tol10 : ℚ := 1 / 10 ^ 10

/-- A JavaScript number as seen by the pose-validation code: either a finite
value (embedded as an exact rational) or one of the non-finite values NaN,
Infinity, -Infinity.  Only probe-pose inputs use this type; once validation
passes, all arithmetic happens on the finite rational payloads. -/
inductive JsNum where
  | num (val : ℚ)
  | nan
  | posInf
  | negInf
deriving DecidableEq

/-- JavaScript isNaN restricted to the values of JsNum. -/
def JsNum.isNaN : JsNum → Bool
  | .nan => true
  | _ => false

/-- JavaScript isFinite restricted to the values of JsNum. -/
def JsNum.isFinite : JsNum → Bool
  | .num _ => true
  | _ => false

/-- The finite payload of a JsNum (only read after validation succeeds). -/
def JsNum.toRat : JsNum → ℚ
  | .num q => q
  | _ => 0

/-- Vector3 from src geometry: a 3-component vector with value semantics. -/
structure Vector3 where
  x : ℚ
  y : ℚ
  z : ℚ
deriving DecidableEq

/-- A probe-pose vector as received from JavaScript callers, before the
service validates it: each component may be NaN or infinite. -/
structure JsVec3 where
  x : JsNum
  y : JsNum
  z : JsNum
deriving DecidableEq

/-- The rational Vector3 underlying a validated pose vector. -/
def JsVec3.toVec (v : JsVec3) : Vector3 :=
  ⟨v.x.toRat, v.y.toRat, v.z.toRat⟩

/-- A JsVec3 with all components finite rationals. -/
def JsVec3.fin (a b c : ℚ) : JsVec3 :=
  ⟨.num a, .num b, .num c⟩

namespace Vector3

/-- The sum of squared components; Vector3.length() is Math.sqrt of this. -/
def lengthSq (v : Vector3) : ℚ :=
  v.x * v.x + v.y * v.y + v.z * v.z

/-- Vector3.length(): Math.sqrt(x*x + y*y + z*z), with Math.sqrt embedded as
the parameter sq. -/
def length (sq : ℚ → ℚ) (v : Vector3) : ℚ :=
  sq (lengthSq v)

/-- Vector3.normalize(): divide by the length, returning the zero vector when
the length is zero (never an error). -/
def normalize (sq : ℚ → ℚ) (v : Vector3) : Vector3 :=
  let len := length sq v
  if len = 0 then ⟨0, 0, 0⟩
  else ⟨v.x / len, v.y / len, v.z / len⟩

/-- Vector3.dot. -/
def dot (a v : Vector3) : ℚ :=
  a.x * v.x + a.y * v.y + a.z * v.z

/-- Vector3.add. -/
def add (a v : Vector3) : Vector3 :=
  ⟨a.x + v.x, a.y + v.y, a.z + v.z⟩

/-- Vector3.subtract. -/
def subtract (a v : Vector3) : Vector3 :=
  ⟨a.x - v.x, a.y - v.y, a.z - v.z⟩

/-- Vector3.multiplyScalar. -/
def multiplyScalar (a : Vector3) (scalar : ℚ) : Vector3 :=
  ⟨a.x * scalar, a.y * scalar, a.z * scalar⟩

/-- Vector3.zero(). -/
def zero : Vector3 := ⟨0, 0, 0⟩

end Vector3

/-- The message of the Error thrown by the Plane constructor on a zero-length
normal (the InvalidGeometry error of the spec). -/
def zeroNormalMsg : String := "法向量不能为零向量"

/-- Plane from src geometry: normal plus constant, with the plane equation
normal . p + constant = 0.  The constructor (planeMk below) enforces the
unit-normal invariant. -/
structure Plane where
  normal : Vector3
  constant : ℚ
deriving DecidableEq

/-- The Plane constructor: throws (here: Except.error) when the normal has
zero length, otherwise stores the normalized normal and the constant. -/
def planeMk (sq : ℚ → ℚ) (normal : Vector3) (constant : ℚ) : Except String Plane :=
  if Vector3.length sq normal = 0 then .error zeroNormalMsg
  else .ok ⟨Vector3.normalize sq normal, constant⟩

/-- Plane.fromPointAndNormal: normalize the normal, set
constant = -(normalizedNormal . point), then invoke the constructor. -/
def fromPointAndNormalE (sq : ℚ → ℚ) (point normal : Vector3) : Except String Plane :=
  let normalizedNormal := Vector3.normalize sq normal
  planeMk sq normalizedNormal (-(normalizedNormal.dot point))

namespace Plane

/-- Plane.distanceToPoint: the signed distance normal . p + constant. -/
def distanceToPoint (p : Plane) (point : Vector3) : ℚ :=
  p.normal.dot point + p.constant

/-- Plane.containsPoint with the source's default tolerance 1e-10. -/
def containsPoint (p : Plane) (point : Vector3) (tolerance : ℚ := tol10) : Bool :=
  |p.distanceToPoint point| < tolerance

end Plane

/-- The parametric crossing point of the segment from a to b with the plane,
computed as a.add((b.subtract(a)).multiplyScalar(t)) for t = da / (da - db),
exactly as TriangleIntersection.planeTriangleIntersection writes it. -/
def edgePoint (a b : Vector3) (da db : ℚ) : Vector3 :=
  a.add ((b.subtract a).multiplyScalar (da / (da - db)))

/-- The number of triangle vertices classified as on-plane, as
planeTriangleIntersection counts them (the source's
[onPlane0, onPlane1, onPlane2].filter(Boolean).length, embedded as the sum
of the three indicator values). -/
def onPlaneCount (plane : Plane) (v0 v1 v2 : Vector3) (tolerance : ℚ) : ℕ :=
  (if |plane.distanceToPoint v0| < tolerance then 1 else 0) +
  (if |plane.distanceToPoint v1| < tolerance then 1 else 0) +
  (if |plane.distanceToPoint v2| < tolerance then 1 else 0)

/-- TriangleIntersection.planeTriangleIntersection: the 0-3 intersection
points of a plane with an ordered triangle, with the source's case dispatch
on the number of on-plane vertices (tolerance default 1e-10; the source's
Boolean on-plane flags appear as their defining conditions).  The final
branch keeps the source's degenerate fallback even though it is unreachable
(the fallback tests onPlaneCount > 0 inside the onPlaneCount = 0 branch). -/
def planeTriangleIntersection (plane : Plane) (triangle : Vector3 × Vector3 × Vector3)
    (tolerance : ℚ := tol10) : List Vector3 :=
  let v0 := triangle.1
  let v1 := triangle.2.1
  let v2 := triangle.2.2
  let d0 := plane.distanceToPoint v0
  let d1 := plane.distanceToPoint v1
  let d2 := plane.distanceToPoint v2
  let cnt := onPlaneCount plane v0 v1 v2 tolerance
  if cnt = 3 then [v0, v1, v2]
  else if cnt = 2 then
    ((if |d0| < tolerance then [v0] else []) ++ (if |d1| < tolerance then [v1] else []) ++
      (if |d2| < tolerance then [v2] else []))
  else if cnt = 1 then
    ((if |d0| < tolerance then [v0] else []) ++ (if |d1| < tolerance then [v1] else []) ++
      (if |d2| < tolerance then [v2] else [])) ++
    ((if d0 * d1 < 0 then [edgePoint v0 v1 d0 d1] else []) ++
     (if d1 * d2 < 0 then [edgePoint v1 v2 d1 d2] else []) ++
     (if d2 * d0 < 0 then [edgePoint v2 v0 d2 d0] else []))
  else
    let intersections :=
      (if d0 * d1 < 0 then [edgePoint v0 v1 d0 d1] else []) ++
      (if d1 * d2 < 0 then [edgePoint v1 v2 d1 d2] else []) ++
      (if d2 * d0 < 0 then [edgePoint v2 v0 d2 d0] else [])
    if intersections.length = 0 ∧ 0 < cnt then
      (if |d0| < tolerance then [v0] else []) ++ (if |d1| < tolerance then [v1] else []) ++
        (if |d2| < tolerance then [v2] else [])
    else intersections

/-- TriangleIntersection.intersectsPlane: false exactly when all three signed
distances lie strictly outside the tolerance band on the same side. -/
def intersectsPlane (plane : Plane) (triangle : Vector3 × Vector3 × Vector3)
    (tolerance : ℚ := tol10) : Bool :=
  let d0 := plane.distanceToPoint triangle.1
  let d1 := plane.distanceToPoint triangle.2.1
  let d2 := plane.distanceToPoint triangle.2.2
  let allPositive := tolerance < d0 ∧ tolerance < d1 ∧ tolerance < d2
  let allNegative := d0 < -tolerance ∧ d1 < -tolerance ∧ d2 < -tolerance
  !(allPositive ∨ allNegative)

/-- IntersectionResult from RealTimeUpdateService: the optional fromCache
field is embedded as a Bool that defaults to false (absent = falsy), and the
optional error field as an Option String. -/
structure IntersectionResult where
  lines : List (List Vector3)
  isValid : Bool
  calculationTime : ℚ
  fromCache : Bool := false
  error : Option String := none
deriving DecidableEq

/-- The error message for an invalid probe position or direction. -/
def invalidPoseMsg : String := "无效的探头位置或方向"

/-- The error message for an empty heart model. -/
def emptyModelMsg : String := "心脏模型为空"

/-- The cache key of generateCacheKey.  The source concatenates the
toFixed(4) renderings of the six pose components and the triangle count into
one string with comma and pipe separators; that formatting is injective in
these seven values, so the key is embedded as the structured tuple itself. -/
structure CacheKey where
  px : ℤ
  py : ℤ
  pz : ℤ
  dx : ℤ
  dy : ℤ
  dz : ℤ
  modelKey : ℕ
deriving DecidableEq

/-- Number.prototype.toFixed(4) as a rounding to an integer number of
10^-4 units: nearest, ties toward the larger value, which is Mathlib round. -/
def toFixed4 (q : ℚ) : ℤ :=
  round (q * 10000)

/-- RealTimeUpdateService.generateCacheKey: quantized position and direction
(4 decimal digits) plus the triangle count of the model. -/
def generateCacheKey (probePosition probeDirection : Vector3)
    (heartModel : List (List Vector3)) : CacheKey :=
  { px := toFixed4 probePosition.x
    py := toFixed4 probePosition.y
    pz := toFixed4 probePosition.z
    dx := toFixed4 probeDirection.x
    dy := toFixed4 probeDirection.y
    dz := toFixed4 probeDirection.z
    modelKey := heartModel.length }

/-- JavaScript Map.get on the association-list embedding of the cache. -/
def mapGet : List (CacheKey × IntersectionResult) → CacheKey → Option IntersectionResult
  | [], _ => none
  | e :: rest, k => if e.1 = k then some e.2 else mapGet rest k

/-- JavaScript Map.set on the association-list embedding of the cache:
replace in place when the key exists, append otherwise. -/
def mapSet : List (CacheKey × IntersectionResult) → CacheKey → IntersectionResult →
    List (CacheKey × IntersectionResult)
  | [], k, v => [(k, v)]
  | e :: rest, k, v => if e.1 = k then (k, v) :: rest else e :: mapSet rest k v

/-- The mutable fields of a RealTimeUpdateService instance. -/
structure RTUState where
  cache : List (CacheKey × IntersectionResult) := []
  lastResult : Option IntersectionResult := none
  cacheHits : ℕ := 0
  cacheMisses : ℕ := 0
  totalCalculations : ℕ := 0
deriving DecidableEq

/-- The state of a freshly constructed RealTimeUpdateService. -/
def initialState : RTUState := {}

/-- RealTimeUpdateService.isValidVector: every component non-NaN and finite. -/
def isValidVector (vector : JsVec3) : Bool :=
  !vector.x.isNaN && !vector.y.isNaN && !vector.z.isNaN &&
    vector.x.isFinite && vector.y.isFinite && vector.z.isFinite

/-- RealTimeUpdateService.calculateEdgeIntersection: the crossing of one
triangle edge with the plane, with the inline 1e-10 on-plane shortcuts. -/
def calculateEdgeIntersection (plane : Plane) (start stop : Vector3) : Option Vector3 :=
  let d1 := plane.distanceToPoint start
  let d2 := plane.distanceToPoint stop
  if d1 * d2 > 0 then none
  else if |d1| < tol10 then some start
  else if |d2| < tol10 then some stop
  else
    let t := -d1 / (d2 - d1)
    some ⟨start.x + t * (stop.x - start.x),
          start.y + t * (stop.y - start.y),
          start.z + t * (stop.z - start.z)⟩

/-- RealTimeUpdateService.calculateTriangleIntersection: the service's own
per-triangle routine (distinct from TriangleIntersection): a sign-change
pre-test, then the three edges in order, keeping the result only when it has
exactly 2 points. -/
def calculateTriangleIntersection (plane : Plane) (triangle : List Vector3) :
    Option (List Vector3) :=
  match triangle with
  | [v0, v1, v2] =>
    let d0 := plane.distanceToPoint v0
    let d1 := plane.distanceToPoint v1
    let d2 := plane.distanceToPoint v2
    if d0 * d1 < 0 ∨ d0 * d2 < 0 ∨ d1 * d2 < 0 then
      let intersectionPoints :=
        (calculateEdgeIntersection plane v0 v1).toList ++
        (calculateEdgeIntersection plane v1 v2).toList ++
        (calculateEdgeIntersection plane v2 v0).toList
      if intersectionPoints.length = 2 then some intersectionPoints else none
    else none
  | _ => none

/-- RealTimeUpdateService.optimizeTriangleOrder: the source returns the
original order. -/
def optimizeTriangleOrder (triangles : List (List Vector3)) : List (List Vector3) :=
  triangles

/-- RealTimeUpdateService.calculateIntersectionLines: accumulate the
per-triangle lines that are exactly 2-point segments. -/
def calculateIntersectionLines (plane : Plane) (heartModel : List (List Vector3)) :
    List (List Vector3) :=
  (optimizeTriangleOrder heartModel).filterMap fun triangle =>
    match calculateTriangleIntersection plane triangle with
    | some line => if line.length = 2 then some line else none
    | none => none

/-- The try-block body of updateSection after validation and cache lookup:
plane construction (which can throw) followed by the intersection scan.
The elapsed parameter stands for the wall-clock duration measured by the
performance.now() pair around the computation. -/
def computeSection (sq : ℚ → ℚ) (pos dir : Vector3) (heartModel : List (List Vector3))
    (elapsed : ℚ) : Except String IntersectionResult :=
  match fromPointAndNormalE sq pos dir with
  | .error e => .error e
  | .ok cuttingPlane =>
    let intersectionLines := calculateIntersectionLines cuttingPlane heartModel
    .ok { lines := intersectionLines
          isValid := !intersectionLines.isEmpty
          calculationTime := elapsed }

/-- RealTimeUpdateService.updateSection as a state transformer: validation,
empty-model check, cache lookup, computation, caching of valid results, and
the catch-all conversion of exceptions into an error result. -/
def updateSection (sq : ℚ → ℚ) (st : RTUState) (elapsed : ℚ)
    (probePosition probeDirection : JsVec3) (heartModel : List (List Vector3)) :
    IntersectionResult × RTUState :=
  if !isValidVector probePosition || !isValidVector probeDirection then
    ({ lines := [], isValid := false, calculationTime := 0,
       error := some invalidPoseMsg }, st)
  else if heartModel.length = 0 then
    ({ lines := [], isValid := false, calculationTime := 0,
       error := some emptyModelMsg }, st)
  else
    let cacheKey := generateCacheKey probePosition.toVec probeDirection.toVec heartModel
    match mapGet st.cache cacheKey with
    | some cachedResult =>
      ({ cachedResult with fromCache := true, calculationTime := 0 },
       { st with cacheHits := st.cacheHits + 1 })
    | none =>
      let st1 := { st with cacheMisses := st.cacheMisses + 1 }
      match computeSection sq probePosition.toVec probeDirection.toVec heartModel elapsed with
      | .ok result =>
        let st2 := if result.isValid then { st1 with cache := mapSet st1.cache cacheKey result }
                   else st1
        (result, { st2 with lastResult := some result,
                            totalCalculations := st2.totalCalculations + 1 })
      | .error e =>
        ({ lines := [], isValid := false, calculationTime := elapsed,
           error := some e }, st1)

/-- RealTimeUpdateService.clearCache: empty the cache and reset the last
result and every counter. -/
def clearCache (_st : RTUState) : RTUState :=
  { cache := [], lastResult := none, cacheHits := 0, cacheMisses := 0,
    totalCalculations := 0 }

/-- RealTimeUpdateService.getLastResult. -/
def getLastResult (st : RTUState) : Option IntersectionResult :=
  st.lastResult

/-- The record returned by getPerformanceStats. -/
structure PerfStats where
  cacheHitRate : ℚ
  totalCalculations : ℕ
  cacheHits : ℕ
  cacheMisses : ℕ
deriving DecidableEq

/-- RealTimeUpdateService.getPerformanceStats. -/
def getPerformanceStats (st : RTUState) : PerfStats :=
  let totalRequests := st.cacheHits + st.cacheMisses
  { cacheHitRate := if 0 < totalRequests then (st.cacheHits : ℚ) / (totalRequests : ℚ) else 0
    totalCalculations := st.totalCalculations
    cacheHits := st.cacheHits
    cacheMisses := st.cacheMisses }

/-- RealTimeUpdateService.setCacheSizeLimit: a full clear when the cache
holds more entries than the limit. -/
def setCacheSizeLimit (st : RTUState) (limit : ℚ) : RTUState :=
  if (st.cache.length : ℚ) > limit then clearCache st else st

/-- VisualizationConfig from SectionVisualizationService. -/
structure VisualizationConfig where
  visible : Bool
  lineWidth : ℚ
  color : String
  opacity : ℚ
  highlight : Bool
deriving DecidableEq

/-- VisualizationOptions: every field optional, as in the source interface. -/
structure VisualizationOptions where
  color : Option String := none
  lineWidth : Option ℚ := none
  opacity : Option ℚ := none
  highlight : Option Bool := none
  highlightColor : Option String := none
deriving DecidableEq

/-- The initial defaultConfig field of SectionVisualizationService. -/
def defaultConfig : VisualizationConfig :=
  { visible := true, lineWidth := 2, color := "#00ff00", opacity := 1, highlight := false }

/-- One character of the hex-color body: [0-9a-fA-F]. -/
def hexDigitChar (ch : Char) : Bool :=
  ('0' ≤ ch ∧ ch ≤ '9') ∨ ('a' ≤ ch ∧ ch ≤ 'f') ∨ ('A' ≤ ch ∧ ch ≤ 'F')

/-- SectionVisualizationService.isValidColor: the regex #[0-9a-fA-F]{6}
anchored at both ends. -/
def isValidColor (color : String) : Bool :=
  match color.data with
  | c :: rest => c = '#' && rest.length = 6 && rest.all hexDigitChar
  | [] => false

/-- SectionVisualizationService.getVisualizationConfig: empty/malformed-line
handling, defaults, validated overrides, and highlight handling, in the
source's order. -/
def getVisualizationConfig (intersectionLines : List (List Vector3))
    (options : VisualizationOptions) : VisualizationConfig :=
  if intersectionLines.length = 0 then
    { defaultConfig with visible := false, lineWidth := 0 }
  else
    let validLines := intersectionLines.filter fun line => line.length = 2
    if validLines.length = 0 then
      { defaultConfig with visible := false }
    else
      let config0 := { defaultConfig with visible := true }
      let config1 :=
        match options.color with
        | some c => { config0 with color := if isValidColor c then c else defaultConfig.color }
        | none => config0
      let config2 :=
        match options.lineWidth with
        | some w => { config1 with lineWidth := max 0 w }
        | none => config1
      let config3 :=
        match options.opacity with
        | some o => { config2 with opacity := max 0 (min 1 o) }
        | none => config2
      if options.highlight = some true then
        let config4 := { config3 with highlight := true, lineWidth := max config3.lineWidth 3 }
        match options.highlightColor with
        | some hc =>
          if isValidColor hc then { config4 with color := hc }
          else { config4 with color := "#ffff00" }
        | none => { config4 with color := "#ffff00" }
      else config3

/-! ### Helper lemmas -/

/-- The squared length vanishes exactly on the zero vector. -/
theorem lengthSq_eq_zero_iff (v : Vector3) : Vector3.lengthSq v = 0 ↔ v = Vector3.zero := by
  rcases v with ⟨x, y, z⟩
  constructor
  · intro h
    simp only [Vector3.lengthSq] at h
    have hx : x = 0 := by nlinarith [mul_self_nonneg x, mul_self_nonneg y, mul_self_nonneg z]
    have hy : y = 0 := by nlinarith [mul_self_nonneg x, mul_self_nonneg y, mul_self_nonneg z]
    have hz : z = 0 := by nlinarith [mul_self_nonneg x, mul_self_nonneg y, mul_self_nonneg z]
    simp [Vector3.zero, hx, hy, hz]
  · intro h
    rw [show (⟨x, y, z⟩ : Vector3) = Vector3.zero from h]
    norm_num [Vector3.lengthSq, Vector3.zero]

/-- Looking up the key just stored by Map.set returns the stored value. -/
theorem mapGet_mapSet_self (c : List (CacheKey × IntersectionResult)) (k : CacheKey)
    (v : IntersectionResult) : mapGet (mapSet c k v) k = some v := by
  induction c with
  | nil => simp [mapSet, mapGet]
  | cons e rest ih =>
    by_cases h : e.1 = k
    · simp [mapSet, mapGet, h]
    · simp [mapSet, mapGet, h, ih]

/-- A vector with an invalid component fails isValidVector, and conversely. -/
theorem isValidVector_eq (v : JsVec3) :
    isValidVector v =
      !(v.x.isNaN || v.y.isNaN || v.z.isNaN ||
        !v.x.isFinite || !v.y.isFinite || !v.z.isFinite) := by
  rcases v with ⟨x, y, z⟩
  cases x <;> cases y <;> cases z <;> rfl

/-! ### Claim C10 -/

/-- Claim C10: whenever setCacheSizeLimit is called while the cache holds
more entries than the limit, the full clear also resets every performance
counter, so getPerformanceStats returns all-zero statistics (hit rate 0) and
getLastResult returns none. -/
theorem c10_theorem (st : RTUState) (limit : ℚ) (h : (st.cache.length : ℚ) > limit) :
    getPerformanceStats (setCacheSizeLimit st limit) =
      { cacheHitRate := 0, totalCalculations := 0, cacheHits := 0, cacheMisses := 0 } ∧
    getLastResult (setCacheSizeLimit st limit) = none := by
  constructor
  · simp [setCacheSizeLimit, h, clearCache, getPerformanceStats]
  · simp [setCacheSizeLimit, h, clearCache, getLastResult]

/-- A concrete IntersectionResult used by witness states. -/
def sampleResult : IntersectionResult :=
  { lines := [[⟨0, 0, 0⟩, ⟨1, 0, 0⟩]], isValid := true, calculationTime := 1 }

/-- A concrete service state holding two cache entries and nonzero counters. -/
def c10State : RTUState :=
  { cache := [(⟨0, 0, 0, 0, 0, 0, 1⟩, sampleResult), (⟨1, 0, 0, 0, 0, 0, 1⟩, sampleResult)]
    lastResult := some sampleResult
    cacheHits := 5
    cacheMisses := 2
    totalCalculations := 7 }

/-- Witness for C10 at a state with 2 cache entries and limit 1. -/
theorem c10_witness :
    getPerformanceStats (setCacheSizeLimit c10State 1) =
      { cacheHitRate := 0, totalCalculations := 0, cacheHits := 0, cacheMisses := 0 } ∧
    getLastResult (setCacheSizeLimit c10State 1) = none :=
  c10_theorem c10State 1 (by norm_num [c10State])

/-! ### Claim C5 -/

/-- Claim C5: for every probe position or direction with a NaN or non-finite
component and every mesh, updateSection returns an invalid result with empty
lines and a populated error, and no exception escapes (the embedding of
updateSection is a total function whose invalid-pose branch is taken). -/
theorem c5_theorem (sq : ℚ → ℚ) (st : RTUState) (elapsed : ℚ)
    (probePosition probeDirection : JsVec3) (heartModel : List (List Vector3))
    (h : (probePosition.x.isNaN || probePosition.y.isNaN || probePosition.z.isNaN ||
          !probePosition.x.isFinite || !probePosition.y.isFinite || !probePosition.z.isFinite) = true ∨
         (probeDirection.x.isNaN || probeDirection.y.isNaN || probeDirection.z.isNaN ||
          !probeDirection.x.isFinite || !probeDirection.y.isFinite || !probeDirection.z.isFinite) = true) :
    (updateSection sq st elapsed probePosition probeDirection heartModel).1.isValid = false ∧
    (updateSection sq st elapsed probePosition probeDirection heartModel).1.lines = [] ∧
    (updateSection sq st elapsed probePosition probeDirection heartModel).1.error =
      some invalidPoseMsg := by
  have hguard : (!isValidVector probePosition || !isValidVector probeDirection) = true := by
    rcases h with h | h
    · rw [isValidVector_eq probePosition, h]; simp
    · rw [isValidVector_eq probeDirection, h]; simp
  refine ⟨?_, ?_, ?_⟩ <;> simp [updateSection, hguard]

/-- Witness for C5 at probePosition = (NaN, 0, 0). -/
theorem c5_witness :
    (updateSection id initialState 1 ⟨.nan, .num 0, .num 0⟩ (JsVec3.fin 0 0 1) []).1.isValid
        = false ∧
    (updateSection id initialState 1 ⟨.nan, .num 0, .num 0⟩ (JsVec3.fin 0 0 1) []).1.lines = [] ∧
    (updateSection id initialState 1 ⟨.nan, .num 0, .num 0⟩ (JsVec3.fin 0 0 1) []).1.error =
      some invalidPoseMsg :=
  c5_theorem id initialState 1 ⟨.nan, .num 0, .num 0⟩ (JsVec3.fin 0 0 1) []
    (Or.inl (by rfl))

/-! ### Claim C8 -/

/-- Claim C8: constructing a Plane with the zero normal throws the
InvalidGeometry error, and for every non-zero normal construction succeeds
with the stored normal of unit length (squared length 1).  Math.sqrt is
embedded as the parameter sq; the hypotheses state the square-root facts the
real-number semantics provides at the relevant argument. -/
theorem c8_theorem (sq : ℚ → ℚ) (n : Vector3) (k : ℚ)
    (hsq0 : sq 0 = 0)
    (hnz : Vector3.lengthSq n ≠ 0 → sq (Vector3.lengthSq n) ≠ 0)
    (hexact : sq (Vector3.lengthSq n) * sq (Vector3.lengthSq n) = Vector3.lengthSq n) :
    (n = Vector3.zero → planeMk sq n k = .error zeroNormalMsg) ∧
    (n ≠ Vector3.zero → ∃ p, planeMk sq n k = .ok p ∧
      Vector3.lengthSq p.normal = 1 ∧ p.constant = k) := by
  constructor
  · intro hzero
    subst hzero
    have h0 : Vector3.lengthSq Vector3.zero = 0 := by
      norm_num [Vector3.lengthSq, Vector3.zero]
    simp [planeMk, Vector3.length, h0, hsq0]
  · intro hnzero
    have hs : Vector3.lengthSq n ≠ 0 := fun h => hnzero ((lengthSq_eq_zero_iff n).mp h)
    have hlen : Vector3.length sq n ≠ 0 := by
      simpa [Vector3.length] using hnz hs
    refine ⟨⟨Vector3.normalize sq n, k⟩, ?_, ?_, rfl⟩
    · simp [planeMk, hlen]
    · rcases n with ⟨x, y, z⟩
      have hlen2 : sq (x * x + y * y + z * z) ≠ 0 := by
        simpa [Vector3.length, Vector3.lengthSq] using hlen
      simp only [Vector3.normalize, Vector3.length, Vector3.lengthSq] at hexact ⊢
      rw [if_neg hlen2]
      field_simp
      linarith [hexact]

/-- Witness for C8: the zero normal is rejected and the normal (0,0,1) is
stored at unit length; sq is instantiated with the identity, which is exact
at the squared lengths 0 and 1 used here. -/
theorem c8_witness :
    (planeMk id Vector3.zero 0 = .error zeroNormalMsg) ∧
    (∃ p, planeMk id ⟨0, 0, 1⟩ 5 = .ok p ∧
      Vector3.lengthSq p.normal = 1 ∧ p.constant = 5) := by
  constructor
  · exact (c8_theorem id Vector3.zero 0 rfl (fun h => h)
      (by norm_num [Vector3.lengthSq, Vector3.zero])).1 rfl
  · exact (c8_theorem id ⟨0, 0, 1⟩ 5 rfl (fun h => h)
      (by norm_num [Vector3.lengthSq])).2
      (by simp only [Vector3.zero, ne_eq, Vector3.mk.injEq]; norm_num)

/-! ### Claim C6 -/

/-- The zero probe direction as a JavaScript input: finite in every
component, so it passes pose validation. -/
def jsZeroVec : JsVec3 := JsVec3.fin 0 0 0

/-- Claim C6: updateSection never lets an exception escape.  The embedding
of updateSection is a total function whose compute phase runs in Except and
whose catch branch converts every error into an invalid result.  In
particular, the zero probe direction passes the finite/non-NaN validation,
Plane construction then throws InvalidGeometry, and updateSection returns
isValid false, empty lines and the thrown message, with only the cache-miss
counter changed. -/
theorem c6_theorem (sq : ℚ → ℚ) (st : RTUState) (elapsed : ℚ) (probePosition : JsVec3)
    (heartModel : List (List Vector3)) (hsq0 : sq 0 = 0)
    (hpos : isValidVector probePosition = true) (hmesh : heartModel.length ≠ 0)
    (hmiss : mapGet st.cache
      (generateCacheKey probePosition.toVec jsZeroVec.toVec heartModel) = none) :
    isValidVector jsZeroVec = true ∧
    (updateSection sq st elapsed probePosition jsZeroVec heartModel).1 =
      { lines := [], isValid := false, calculationTime := elapsed,
        error := some zeroNormalMsg } ∧
    (updateSection sq st elapsed probePosition jsZeroVec heartModel).2 =
      { st with cacheMisses := st.cacheMisses + 1 } := by
  have hz : jsZeroVec.toVec = ⟨0, 0, 0⟩ := rfl
  have hnorm : Vector3.normalize sq ⟨0, 0, 0⟩ = ⟨0, 0, 0⟩ := by
    have h0 : Vector3.length sq ⟨0, 0, 0⟩ = 0 := by
      simp only [Vector3.length, Vector3.lengthSq]
      norm_num [hsq0]
    simp [Vector3.normalize, h0]
  have hcompute : computeSection sq probePosition.toVec jsZeroVec.toVec heartModel elapsed =
      .error zeroNormalMsg := by
    have h0 : Vector3.length sq ⟨0, 0, 0⟩ = 0 := by
      simp only [Vector3.length, Vector3.lengthSq]
      norm_num [hsq0]
    simp [computeSection, fromPointAndNormalE, hz, hnorm, planeMk, h0]
  have hzv : isValidVector jsZeroVec = true := rfl
  refine ⟨rfl, ?_, ?_⟩ <;>
    simp [updateSection, hpos, hzv, hmesh, hmiss, hcompute]

/-- A concrete nonempty mesh for the C6 witness. -/
def c6Mesh : List (List Vector3) := [[⟨0, 0, 1⟩, ⟨1, 0, 1⟩, ⟨0, 1, 1⟩]]

/-- Witness for C6: a fresh service, a finite pose, the zero direction. -/
theorem c6_witness :
    isValidVector jsZeroVec = true ∧
    (updateSection id initialState 2 (JsVec3.fin 1 2 3) jsZeroVec c6Mesh).1 =
      { lines := [], isValid := false, calculationTime := 2,
        error := some zeroNormalMsg } ∧
    (updateSection id initialState 2 (JsVec3.fin 1 2 3) jsZeroVec c6Mesh).2 =
      { initialState with cacheMisses := 1 } :=
  c6_theorem id initialState 2 (JsVec3.fin 1 2 3) c6Mesh rfl rfl
    (by norm_num [c6Mesh]) (by simp [initialState, mapGet])

/-! ### Claim C4 -/

/-- The first C4 mesh: one triangle straddling the cutting plane. -/
def c4Mesh1 : List (List Vector3) := [[⟨0, 0, -1⟩, ⟨2, 0, 1⟩, ⟨0, 2, 1⟩]]

/-- The second C4 mesh: same triangle count, different geometry, and no
intersection with the same cutting plane. -/
def c4Mesh2 : List (List Vector3) := [[⟨0, 0, 5⟩, ⟨1, 0, 5⟩, ⟨0, 1, 5⟩]]

/-- The C4 probe position. -/
def c4Pos : JsVec3 := JsVec3.fin 0 0 0

/-- The C4 probe direction. -/
def c4Dir : JsVec3 := JsVec3.fin 0 0 1

/-- The first C4 call: a cache miss on c4Mesh1 producing a valid result. -/
def c4Run1 : IntersectionResult × RTUState :=
  updateSection id initialState 1 c4Pos c4Dir c4Mesh1

/-- The second C4 call: the same pose on c4Mesh2. -/
def c4Run2 : IntersectionResult × RTUState :=
  updateSection id c4Run1.2 1 c4Pos c4Dir c4Mesh2

/-- Claim C4: two meshes with the same triangle count but different
geometry, and one pose, such that the second updateSection call returns the
first mesh's cached lines marked fromCache, even though computing the second
mesh directly would give different (here: no) lines — the cache key sees
only the triangle count of the mesh. -/
theorem c4_theorem :
    c4Mesh1 ≠ c4Mesh2 ∧
    c4Mesh1.length = c4Mesh2.length ∧
    c4Run1.1.isValid = true ∧
    c4Run1.1.fromCache = false ∧
    c4Run2.1.fromCache = true ∧
    c4Run2.1.lines = c4Run1.1.lines ∧
    c4Run2.1.lines ≠ calculateIntersectionLines ⟨⟨0, 0, 1⟩, 0⟩ c4Mesh2 := by
  refine ⟨?_, by norm_num [c4Mesh1, c4Mesh2], ?_, ?_, ?_, ?_, ?_⟩ <;>
    norm_num [c4Run1, c4Run2, c4Mesh1, c4Mesh2, c4Pos, c4Dir, updateSection, initialState,
      isValidVector, JsVec3.fin, JsNum.isNaN, JsNum.isFinite, generateCacheKey, JsVec3.toVec,
      JsNum.toRat, toFixed4, mapGet, mapSet, computeSection, fromPointAndNormalE, planeMk,
      Vector3.normalize, Vector3.length, Vector3.lengthSq, Vector3.dot,
      calculateIntersectionLines, optimizeTriangleOrder, calculateTriangleIntersection,
      calculateEdgeIntersection, Plane.distanceToPoint, tol10,
      List.filterMap_cons, List.filterMap_nil, Option.toList]

/-! ### Claim C9 -/

set_option maxHeartbeats 1600000 in
/-- Claim C9: on a non-empty list of well-formed 2-point segments,
getVisualizationConfig clamps a supplied opacity into [0,1] (computing
max 0 (min 1 o), so 1.5 yields 1), keeps the line width nonnegative (a
supplied width becomes max 0 w when highlight is off), and highlight forces
a line width of at least 3 and the color to the highlightColor when it is a
valid 6-hex-digit color, otherwise to the fixed default highlight color. -/
theorem c9_theorem (intersectionLines : List (List Vector3)) (options : VisualizationOptions)
    (hne : intersectionLines ≠ []) (hwf : ∀ l ∈ intersectionLines, l.length = 2) :
    (0 ≤ (getVisualizationConfig intersectionLines options).opacity ∧
      (getVisualizationConfig intersectionLines options).opacity ≤ 1) ∧
    (∀ o, options.opacity = some o →
      (getVisualizationConfig intersectionLines options).opacity = max 0 (min 1 o)) ∧
    (0 ≤ (getVisualizationConfig intersectionLines options).lineWidth) ∧
    (∀ w, options.lineWidth = some w → options.highlight ≠ some true →
      (getVisualizationConfig intersectionLines options).lineWidth = max 0 w) ∧
    (options.highlight = some true →
      3 ≤ (getVisualizationConfig intersectionLines options).lineWidth ∧
      (getVisualizationConfig intersectionLines options).color =
        (match options.highlightColor with
         | some hcol => if isValidColor hcol then hcol else "#ffff00"
         | none => "#ffff00")) := by
  have hlen : ¬ intersectionLines.length = 0 := by
    simpa [List.length_eq_zero] using hne
  have hfilter : intersectionLines.filter (fun line => line.length = 2) = intersectionLines :=
    List.filter_eq_self.mpr (fun a ha => by simpa using hwf a ha)
  rcases options with ⟨oc, ow, oo, oh, ohc⟩
  rcases oc with _ | c <;> rcases ow with _ | w <;> rcases oo with _ | o <;>
    rcases oh with _ | b <;> rcases ohc with _ | hcol <;> try cases b
  all_goals
    simp only [getVisualizationConfig, hfilter, if_neg hlen, defaultConfig]
  all_goals
    refine ⟨⟨?_, ?_⟩, ?_, ?_, ?_, ?_⟩ <;> intros <;>
      (try split_ifs) <;>
      simp_all [le_sup_iff, sup_le_iff, inf_le_iff, le_inf_iff]

/-- The C9 witness line list: one well-formed 2-point segment. -/
def c9Lines : List (List Vector3) := [[⟨0, 0, 0⟩, ⟨1, 0, 0⟩]]

/-- The C9 witness options: out-of-range opacity 1.5, negative line width,
highlight on with a valid highlight color. -/
def c9Opts : VisualizationOptions :=
  { opacity := some (3 / 2), lineWidth := some (-5), highlight := some true,
    highlightColor := some "#ff0000" }

/-- Witness for C9: opacity 1.5 is clamped to 1, the negative width is
raised to the highlight minimum 3, and the valid highlight color is used. -/
theorem c9_witness :
    (getVisualizationConfig c9Lines c9Opts).opacity = 1 ∧
    3 ≤ (getVisualizationConfig c9Lines c9Opts).lineWidth ∧
    (getVisualizationConfig c9Lines c9Opts).color = "#ff0000" := by
  have h := c9_theorem c9Lines c9Opts (by simp [c9Lines]) (by simp [c9Lines])
  refine ⟨?_, (h.2.2.2.2 rfl).1, ?_⟩
  · have ho := h.2.1 (3 / 2) rfl
    rw [ho]; norm_num
  · have hcolor := (h.2.2.2.2 rfl).2
    have hv : isValidColor "#ff0000" = true := by decide
    rw [hcolor]
    simp [c9Opts, hv]

/-! ### Claim C2 -/

/-- Counterexample to C2 as stated: with exactly one on-plane vertex
(distance 1e-12, inside the 1e-10 band) and no sign change on the one edge
not incident to it, the algorithm still returns 3 points — two of them
crossing points computed from the edges incident to the on-plane vertex,
which the claim says are never considered. -/
theorem c2_counterexample :
    onPlaneCount ⟨⟨0, 0, 1⟩, 0⟩ ⟨0, 0, 1 / 10 ^ 12⟩ ⟨0, 1, -1⟩ ⟨0, 2, -1⟩ tol10 = 1 ∧
    ¬ ((⟨⟨0, 0, 1⟩, 0⟩ : Plane).distanceToPoint ⟨0, 1, -1⟩ *
        (⟨⟨0, 0, 1⟩, 0⟩ : Plane).distanceToPoint ⟨0, 2, -1⟩ < 0) ∧
    (planeTriangleIntersection ⟨⟨0, 0, 1⟩, 0⟩
      (⟨0, 0, 1 / 10 ^ 12⟩, ⟨0, 1, -1⟩, ⟨0, 2, -1⟩) tol10).length = 3 := by
  refine ⟨?_, ?_, ?_⟩ <;>
    norm_num [onPlaneCount, planeTriangleIntersection, Plane.distanceToPoint, Vector3.dot,
      tol10, abs_lt]

/-- Claim C2 (amended): with exactly one on-plane vertex,
planeTriangleIntersection returns that vertex followed by a crossing point
for each of the three edges — including the edges incident to the on-plane
vertex — whose endpoint distances satisfy di*dj less than 0; when the
on-plane vertex lies exactly on the plane, the incident edges cannot pass
the sign test, so the result is the vertex plus at most one crossing. -/
theorem c2_theorem (plane : Plane) (tolerance : ℚ) (v0 v1 v2 : Vector3)
    (hone : onPlaneCount plane v0 v1 v2 tolerance = 1) :
    planeTriangleIntersection plane (v0, v1, v2) tolerance =
      ((if |plane.distanceToPoint v0| < tolerance then [v0] else []) ++
       (if |plane.distanceToPoint v1| < tolerance then [v1] else []) ++
       (if |plane.distanceToPoint v2| < tolerance then [v2] else [])) ++
      ((if plane.distanceToPoint v0 * plane.distanceToPoint v1 < 0 then
          [edgePoint v0 v1 (plane.distanceToPoint v0) (plane.distanceToPoint v1)] else []) ++
       (if plane.distanceToPoint v1 * plane.distanceToPoint v2 < 0 then
          [edgePoint v1 v2 (plane.distanceToPoint v1) (plane.distanceToPoint v2)] else []) ++
       (if plane.distanceToPoint v2 * plane.distanceToPoint v0 < 0 then
          [edgePoint v2 v0 (plane.distanceToPoint v2) (plane.distanceToPoint v0)] else [])) ∧
    ((|plane.distanceToPoint v0| < tolerance → plane.distanceToPoint v0 = 0) →
     (|plane.distanceToPoint v1| < tolerance → plane.distanceToPoint v1 = 0) →
     (|plane.distanceToPoint v2| < tolerance → plane.distanceToPoint v2 = 0) →
     (planeTriangleIntersection plane (v0, v1, v2) tolerance).length ≤ 2) := by
  have heq : planeTriangleIntersection plane (v0, v1, v2) tolerance =
      ((if |plane.distanceToPoint v0| < tolerance then [v0] else []) ++
       (if |plane.distanceToPoint v1| < tolerance then [v1] else []) ++
       (if |plane.distanceToPoint v2| < tolerance then [v2] else [])) ++
      ((if plane.distanceToPoint v0 * plane.distanceToPoint v1 < 0 then
          [edgePoint v0 v1 (plane.distanceToPoint v0) (plane.distanceToPoint v1)] else []) ++
       (if plane.distanceToPoint v1 * plane.distanceToPoint v2 < 0 then
          [edgePoint v1 v2 (plane.distanceToPoint v1) (plane.distanceToPoint v2)] else []) ++
       (if plane.distanceToPoint v2 * plane.distanceToPoint v0 < 0 then
          [edgePoint v2 v0 (plane.distanceToPoint v2) (plane.distanceToPoint v0)] else [])) := by
    simp only [planeTriangleIntersection, hone]
    norm_num
  refine ⟨heq, fun h0 h1 h2 => ?_⟩
  rw [heq]
  by_cases hc0 : |plane.distanceToPoint v0| < tolerance <;>
    by_cases hc1 : |plane.distanceToPoint v1| < tolerance <;>
    by_cases hc2 : |plane.distanceToPoint v2| < tolerance <;>
    simp [onPlaneCount, hc0, hc1, hc2] at hone
  · -- only v0 on-plane
    have hz : plane.distanceToPoint v0 = 0 := h0 hc0
    have hp0 : ¬ (plane.distanceToPoint v0 * plane.distanceToPoint v1 < 0) := by
      rw [hz]; simp
    have hp2 : ¬ (plane.distanceToPoint v2 * plane.distanceToPoint v0 < 0) := by
      rw [hz]; simp
    simp only [if_pos hc0, if_neg hc1, if_neg hc2, if_neg hp0, if_neg hp2]
    split_ifs <;> simp
  · -- only v1 on-plane
    have hz : plane.distanceToPoint v1 = 0 := h1 hc1
    have hp0 : ¬ (plane.distanceToPoint v0 * plane.distanceToPoint v1 < 0) := by
      rw [hz]; simp
    have hp1 : ¬ (plane.distanceToPoint v1 * plane.distanceToPoint v2 < 0) := by
      rw [hz]; simp
    simp only [if_neg hc0, if_pos hc1, if_neg hc2, if_neg hp0, if_neg hp1]
    split_ifs <;> simp
  · -- only v2 on-plane
    have hz : plane.distanceToPoint v2 = 0 := h2 hc2
    have hp1 : ¬ (plane.distanceToPoint v1 * plane.distanceToPoint v2 < 0) := by
      rw [hz]; simp
    have hp2 : ¬ (plane.distanceToPoint v2 * plane.distanceToPoint v0 < 0) := by
      rw [hz]; simp
    simp only [if_neg hc0, if_neg hc1, if_pos hc2, if_neg hp1, if_neg hp2]
    split_ifs <;> simp

/-- Witness for C2 (amended) at a triangle whose vertex v0 lies exactly on
the plane and whose opposite edge crosses it: the result is the on-plane
vertex plus the one crossing point, length 2. -/
theorem c2_witness :
    planeTriangleIntersection ⟨⟨0, 0, 1⟩, 0⟩ (⟨0, 0, 0⟩, ⟨0, 1, 1⟩, ⟨0, 1, -1⟩) tol10 =
      [⟨0, 0, 0⟩] ++ ([] ++ [edgePoint ⟨0, 1, 1⟩ ⟨0, 1, -1⟩ 1 (-1)] ++ []) ∧
    (planeTriangleIntersection ⟨⟨0, 0, 1⟩, 0⟩
      (⟨0, 0, 0⟩, ⟨0, 1, 1⟩, ⟨0, 1, -1⟩) tol10).length ≤ 2 := by
  have h := c2_theorem ⟨⟨0, 0, 1⟩, 0⟩ tol10 ⟨0, 0, 0⟩ ⟨0, 1, 1⟩ ⟨0, 1, -1⟩
    (by norm_num [onPlaneCount, Plane.distanceToPoint, Vector3.dot, tol10])
  constructor
  · rw [h.1]
    norm_num [Plane.distanceToPoint, Vector3.dot, tol10]
  · exact h.2 (fun _ => by norm_num [Plane.distanceToPoint, Vector3.dot])
      (fun hx => absurd hx (by norm_num [Plane.distanceToPoint, Vector3.dot, tol10]))
      (fun hx => absurd hx (by norm_num [Plane.distanceToPoint, Vector3.dot, tol10]))

/-! ### Claim C7 -/

/-- The signed distance is affine along the parametrized segment from a to
b: distance(a + t*(b - a)) = da + t*(db - da). -/
theorem distance_affine (plane : Plane) (a b : Vector3) (t : ℚ) :
    plane.distanceToPoint (a.add ((b.subtract a).multiplyScalar t)) =
      plane.distanceToPoint a +
        t * (plane.distanceToPoint b - plane.distanceToPoint a) := by
  rcases plane with ⟨⟨nx, ny, nz⟩, k⟩
  rcases a with ⟨ax, ay, az⟩
  rcases b with ⟨cx, cy, cz⟩
  simp only [Plane.distanceToPoint, Vector3.dot, Vector3.add, Vector3.subtract,
    Vector3.multiplyScalar]
  ring

/-- The parametric crossing point lies exactly on the plane (distance 0),
whenever the two endpoint distances differ. -/
theorem distance_edgePoint (plane : Plane) (a b : Vector3)
    (h : plane.distanceToPoint a ≠ plane.distanceToPoint b) :
    plane.distanceToPoint
      (edgePoint a b (plane.distanceToPoint a) (plane.distanceToPoint b)) = 0 := by
  rw [edgePoint, distance_affine]
  have hne : plane.distanceToPoint a - plane.distanceToPoint b ≠ 0 := sub_ne_zero.2 h
  field_simp
  ring

/-- Opposite-sign endpoint distances are distinct. -/
theorem ne_of_mul_neg {a b : ℚ} (h : a * b < 0) : a ≠ b := by
  intro he
  rw [he] at h
  exact absurd h (not_lt.2 (mul_self_nonneg b))

/-- Counterexample to C7 as stated: at tolerance 0 every vertex with
distance 0 has magnitude at least the tolerance, so the triangle with
distances (0, 1, -1) satisfies the claim's hypotheses and does not have all
distances of one sign, yet the algorithm returns a single point, not 2. -/
theorem c7_counterexample :
    (0 : ℚ) ≤ |(⟨⟨0, 0, 1⟩, 0⟩ : Plane).distanceToPoint ⟨0, 0, 0⟩| ∧
    (0 : ℚ) ≤ |(⟨⟨0, 0, 1⟩, 0⟩ : Plane).distanceToPoint ⟨0, 1, 1⟩| ∧
    (0 : ℚ) ≤ |(⟨⟨0, 0, 1⟩, 0⟩ : Plane).distanceToPoint ⟨0, 1, -1⟩| ∧
    ¬ ((0 < (⟨⟨0, 0, 1⟩, 0⟩ : Plane).distanceToPoint ⟨0, 0, 0⟩ ∧
        0 < (⟨⟨0, 0, 1⟩, 0⟩ : Plane).distanceToPoint ⟨0, 1, 1⟩ ∧
        0 < (⟨⟨0, 0, 1⟩, 0⟩ : Plane).distanceToPoint ⟨0, 1, -1⟩) ∨
       ((⟨⟨0, 0, 1⟩, 0⟩ : Plane).distanceToPoint ⟨0, 0, 0⟩ < 0 ∧
        (⟨⟨0, 0, 1⟩, 0⟩ : Plane).distanceToPoint ⟨0, 1, 1⟩ < 0 ∧
        (⟨⟨0, 0, 1⟩, 0⟩ : Plane).distanceToPoint ⟨0, 1, -1⟩ < 0)) ∧
    (planeTriangleIntersection ⟨⟨0, 0, 1⟩, 0⟩ (⟨0, 0, 0⟩, ⟨0, 1, 1⟩, ⟨0, 1, -1⟩) 0).length
      = 1 := by
  refine ⟨?_, ?_, ?_, ?_, ?_⟩ <;>
    norm_num [planeTriangleIntersection, onPlaneCount, Plane.distanceToPoint, Vector3.dot,
      abs_lt]

/-- Claim C7 (amended with a positive tolerance): when every vertex distance
has magnitude at least the (positive) tolerance, a triangle whose distances
are all of one sign gives no intersection, and otherwise exactly 2 points
are returned, each lying exactly on the plane (so containsPoint at the
default tolerance holds). -/
theorem c7_theorem (plane : Plane) (tolerance : ℚ) (a b c : Vector3)
    (htol : 0 < tolerance)
    (ha : tolerance ≤ |plane.distanceToPoint a|)
    (hb : tolerance ≤ |plane.distanceToPoint b|)
    (hc : tolerance ≤ |plane.distanceToPoint c|) :
    (((0 < plane.distanceToPoint a ∧ 0 < plane.distanceToPoint b ∧
        0 < plane.distanceToPoint c) ∨
      (plane.distanceToPoint a < 0 ∧ plane.distanceToPoint b < 0 ∧
        plane.distanceToPoint c < 0)) →
      planeTriangleIntersection plane (a, b, c) tolerance = []) ∧
    (¬ ((0 < plane.distanceToPoint a ∧ 0 < plane.distanceToPoint b ∧
        0 < plane.distanceToPoint c) ∨
      (plane.distanceToPoint a < 0 ∧ plane.distanceToPoint b < 0 ∧
        plane.distanceToPoint c < 0)) →
      (planeTriangleIntersection plane (a, b, c) tolerance).length = 2 ∧
      ∀ p ∈ planeTriangleIntersection plane (a, b, c) tolerance,
        plane.containsPoint p = true) := by
  have hf0 : ¬ (|plane.distanceToPoint a| < tolerance) := not_lt.2 ha
  have hf1 : ¬ (|plane.distanceToPoint b| < tolerance) := not_lt.2 hb
  have hf2 : ¬ (|plane.distanceToPoint c| < tolerance) := not_lt.2 hc
  have hna : plane.distanceToPoint a ≠ 0 := by
    intro h; rw [h] at ha; simp at ha; exact absurd (lt_of_le_of_lt ha htol) (lt_irrefl _)
  have hnb : plane.distanceToPoint b ≠ 0 := by
    intro h; rw [h] at hb; simp at hb; exact absurd (lt_of_le_of_lt hb htol) (lt_irrefl _)
  have hnc : plane.distanceToPoint c ≠ 0 := by
    intro h; rw [h] at hc; simp at hc; exact absurd (lt_of_le_of_lt hc htol) (lt_irrefl _)
  have hcnt : onPlaneCount plane a b c tolerance = 0 := by
    simp [onPlaneCount, hf0, hf1, hf2]
  constructor
  · rintro (⟨h1, h2, h3⟩ | ⟨h1, h2, h3⟩) <;>
    · have p01 : ¬ (plane.distanceToPoint a * plane.distanceToPoint b < 0) :=
        not_lt.2 (le_of_lt (by first | exact mul_pos h1 h2 | exact mul_pos_of_neg_of_neg h1 h2))
      have p12 : ¬ (plane.distanceToPoint b * plane.distanceToPoint c < 0) :=
        not_lt.2 (le_of_lt (by first | exact mul_pos h2 h3 | exact mul_pos_of_neg_of_neg h2 h3))
      have p20 : ¬ (plane.distanceToPoint c * plane.distanceToPoint a < 0) :=
        not_lt.2 (le_of_lt (by first | exact mul_pos h3 h1 | exact mul_pos_of_neg_of_neg h3 h1))
      simp [planeTriangleIntersection, hcnt, p01, p12, p20]
  · intro hmix
    rcases lt_or_gt_of_ne hna with s0 | s0 <;> rcases lt_or_gt_of_ne hnb with s1 | s1 <;>
      rcases lt_or_gt_of_ne hnc with s2 | s2
    · exact absurd (Or.inr ⟨s0, s1, s2⟩) hmix
    · -- signs (-, -, +)
      have p01 : ¬ (plane.distanceToPoint a * plane.distanceToPoint b < 0) :=
        not_lt.2 (le_of_lt (mul_pos_of_neg_of_neg s0 s1))
      have p12 : plane.distanceToPoint b * plane.distanceToPoint c < 0 :=
        mul_neg_of_neg_of_pos s1 s2
      have p20 : plane.distanceToPoint c * plane.distanceToPoint a < 0 :=
        mul_neg_of_pos_of_neg s2 s0
      have hd1 := distance_edgePoint plane b c (ne_of_mul_neg p12)
      have hd2 := distance_edgePoint plane c a (ne_of_mul_neg p20)
      refine ⟨by simp [planeTriangleIntersection, hcnt, p01, p12, p20], ?_⟩
      intro p hp
      simp [planeTriangleIntersection, hcnt, p01, p12, p20] at hp
      rcases hp with hp | hp <;> rw [hp] <;>
        simp [Plane.containsPoint, decide_eq_true_eq, hd1, hd2] <;> norm_num [tol10]
    · -- signs (-, +, -)
      have p01 : plane.distanceToPoint a * plane.distanceToPoint b < 0 :=
        mul_neg_of_neg_of_pos s0 s1
      have p12 : plane.distanceToPoint b * plane.distanceToPoint c < 0 :=
        mul_neg_of_pos_of_neg s1 s2
      have p20 : ¬ (plane.distanceToPoint c * plane.distanceToPoint a < 0) :=
        not_lt.2 (le_of_lt (mul_pos_of_neg_of_neg s2 s0))
      have hd1 := distance_edgePoint plane a b (ne_of_mul_neg p01)
      have hd2 := distance_edgePoint plane b c (ne_of_mul_neg p12)
      refine ⟨by simp [planeTriangleIntersection, hcnt, p01, p12, p20], ?_⟩
      intro p hp
      simp [planeTriangleIntersection, hcnt, p01, p12, p20] at hp
      rcases hp with hp | hp <;> rw [hp] <;>
        simp [Plane.containsPoint, decide_eq_true_eq, hd1, hd2] <;> norm_num [tol10]
    · -- signs (-, +, +)
      have p01 : plane.distanceToPoint a * plane.distanceToPoint b < 0 :=
        mul_neg_of_neg_of_pos s0 s1
      have p12 : ¬ (plane.distanceToPoint b * plane.distanceToPoint c < 0) :=
        not_lt.2 (le_of_lt (mul_pos s1 s2))
      have p20 : plane.distanceToPoint c * plane.distanceToPoint a < 0 :=
        mul_neg_of_pos_of_neg s2 s0
      have hd1 := distance_edgePoint plane a b (ne_of_mul_neg p01)
      have hd2 := distance_edgePoint plane c a (ne_of_mul_neg p20)
      refine ⟨by simp [planeTriangleIntersection, hcnt, p01, p12, p20], ?_⟩
      intro p hp
      simp [planeTriangleIntersection, hcnt, p01, p12, p20] at hp
      rcases hp with hp | hp <;> rw [hp] <;>
        simp [Plane.containsPoint, decide_eq_true_eq, hd1, hd2] <;> norm_num [tol10]
    · -- signs (+, -, -)
      have p01 : plane.distanceToPoint a * plane.distanceToPoint b < 0 :=
        mul_neg_of_pos_of_neg s0 s1
      have p12 : ¬ (plane.distanceToPoint b * plane.distanceToPoint c < 0) :=
        not_lt.2 (le_of_lt (mul_pos_of_neg_of_neg s1 s2))
      have p20 : plane.distanceToPoint c * plane.distanceToPoint a < 0 :=
        mul_neg_of_neg_of_pos s2 s0
      have hd1 := distance_edgePoint plane a b (ne_of_mul_neg p01)
      have hd2 := distance_edgePoint plane c a (ne_of_mul_neg p20)
      refine ⟨by simp [planeTriangleIntersection, hcnt, p01, p12, p20], ?_⟩
      intro p hp
      simp [planeTriangleIntersection, hcnt, p01, p12, p20] at hp
      rcases hp with hp | hp <;> rw [hp] <;>
        simp [Plane.containsPoint, decide_eq_true_eq, hd1, hd2] <;> norm_num [tol10]
    · -- signs (+, -, +)
      have p01 : plane.distanceToPoint a * plane.distanceToPoint b < 0 :=
        mul_neg_of_pos_of_neg s0 s1
      have p12 : plane.distanceToPoint b * plane.distanceToPoint c < 0 :=
        mul_neg_of_neg_of_pos s1 s2
      have p20 : ¬ (plane.distanceToPoint c * plane.distanceToPoint a < 0) :=
        not_lt.2 (le_of_lt (mul_pos s2 s0))
      have hd1 := distance_edgePoint plane a b (ne_of_mul_neg p01)
      have hd2 := distance_edgePoint plane b c (ne_of_mul_neg p12)
      refine ⟨by simp [planeTriangleIntersection, hcnt, p01, p12, p20], ?_⟩
      intro p hp
      simp [planeTriangleIntersection, hcnt, p01, p12, p20] at hp
      rcases hp with hp | hp <;> rw [hp] <;>
        simp [Plane.containsPoint, decide_eq_true_eq, hd1, hd2] <;> norm_num [tol10]
    · -- signs (+, +, -)
      have p01 : ¬ (plane.distanceToPoint a * plane.distanceToPoint b < 0) :=
        not_lt.2 (le_of_lt (mul_pos s0 s1))
      have p12 : plane.distanceToPoint b * plane.distanceToPoint c < 0 :=
        mul_neg_of_pos_of_neg s1 s2
      have p20 : plane.distanceToPoint c * plane.distanceToPoint a < 0 :=
        mul_neg_of_neg_of_pos s2 s0
      have hd1 := distance_edgePoint plane b c (ne_of_mul_neg p12)
      have hd2 := distance_edgePoint plane c a (ne_of_mul_neg p20)
      refine ⟨by simp [planeTriangleIntersection, hcnt, p01, p12, p20], ?_⟩
      intro p hp
      simp [planeTriangleIntersection, hcnt, p01, p12, p20] at hp
      rcases hp with hp | hp <;> rw [hp] <;>
        simp [Plane.containsPoint, decide_eq_true_eq, hd1, hd2] <;> norm_num [tol10]
    · exact absurd (Or.inl ⟨s0, s1, s2⟩) hmix

/-- Witness for C7 at the plane z = 0 and a straddling triangle with
distances (-1, 1, 1): exactly 2 intersection points, and the first returned
point (1, 0, 0) satisfies containsPoint. -/
theorem c7_witness :
    (planeTriangleIntersection ⟨⟨0, 0, 1⟩, 0⟩ (⟨0, 0, -1⟩, ⟨2, 0, 1⟩, ⟨0, 2, 1⟩)
      tol10).length = 2 ∧
    (⟨⟨0, 0, 1⟩, 0⟩ : Plane).containsPoint ⟨1, 0, 0⟩ = true := by
  have h := (c7_theorem ⟨⟨0, 0, 1⟩, 0⟩ tol10 ⟨0, 0, -1⟩ ⟨2, 0, 1⟩ ⟨0, 2, 1⟩
    (by norm_num [tol10])
    (by norm_num [Plane.distanceToPoint, Vector3.dot, tol10])
    (by norm_num [Plane.distanceToPoint, Vector3.dot, tol10])
    (by norm_num [Plane.distanceToPoint, Vector3.dot, tol10])).2
    (by norm_num [Plane.distanceToPoint, Vector3.dot])
  refine ⟨h.1, h.2 ⟨1, 0, 0⟩ ?_⟩
  norm_num [planeTriangleIntersection, onPlaneCount, Plane.distanceToPoint, Vector3.dot,
    tol10, abs_lt, edgePoint, Vector3.add, Vector3.subtract, Vector3.multiplyScalar]

/-! ### Claim C3 -/

/-- A mesh whose single triangle misses the cutting plane of the C3 pose:
the first call yields an invalid (empty-lines) result, which is not cached. -/
def c3MissMesh : List (List Vector3) := [[⟨0, 0, 5⟩, ⟨1, 0, 5⟩, ⟨0, 1, 5⟩]]

/-- Counterexample to C3 as stated: with a mesh that does not intersect the
plane, the first result is invalid and therefore not cached, so the second
identical call is not served from the cache (fromCache stays false). -/
theorem c3_counterexample :
    (updateSection id
      (updateSection id initialState 1 (JsVec3.fin 0 0 0) (JsVec3.fin 0 0 1) c3MissMesh).2
      1 (JsVec3.fin 0 0 0) (JsVec3.fin 0 0 1) c3MissMesh).1.fromCache = false := by
  norm_num [c3MissMesh, updateSection, initialState, isValidVector, JsVec3.fin, JsNum.isNaN,
    JsNum.isFinite, generateCacheKey, JsVec3.toVec, JsNum.toRat, toFixed4, mapGet, mapSet,
    computeSection, fromPointAndNormalE, planeMk, Vector3.normalize, Vector3.length,
    Vector3.lengthSq, Vector3.dot, calculateIntersectionLines, optimizeTriangleOrder,
    calculateTriangleIntersection, calculateEdgeIntersection, Plane.distanceToPoint, tol10,
    List.filterMap_cons, List.filterMap_nil, Option.toList]

/-- Claim C3 (amended): two successive updateSection calls with the same
pose and mesh return fromCache true on the second call with calculationTime
not exceeding the first call's time, provided the first call's result is
valid (only valid results are cached) and the measured duration of the first
call is nonnegative. -/
theorem c3_theorem (sq : ℚ → ℚ) (st : RTUState) (elapsed1 elapsed2 : ℚ)
    (probePosition probeDirection : JsVec3) (heartModel : List (List Vector3))
    (h1v : (updateSection sq st elapsed1 probePosition probeDirection heartModel).1.isValid
      = true)
    (he : 0 ≤ elapsed1) :
    (updateSection sq
        (updateSection sq st elapsed1 probePosition probeDirection heartModel).2
        elapsed2 probePosition probeDirection heartModel).1.fromCache = true ∧
    (updateSection sq
        (updateSection sq st elapsed1 probePosition probeDirection heartModel).2
        elapsed2 probePosition probeDirection heartModel).1.calculationTime ≤
      (updateSection sq st elapsed1 probePosition probeDirection heartModel).1.calculationTime
      := by
  have hvd : (!isValidVector probePosition || !isValidVector probeDirection) = false := by
    cases hvb : (!isValidVector probePosition || !isValidVector probeDirection)
    · rfl
    · exfalso; simp [updateSection, hvb] at h1v
  have hm : ¬ (heartModel.length = 0) := by
    intro hm0
    simp [updateSection, hvd, hm0] at h1v
  rcases hc : mapGet st.cache
      (generateCacheKey probePosition.toVec probeDirection.toVec heartModel)
    with _ | cached
  · -- first call is a cache miss
    rcases he2 : computeSection sq probePosition.toVec probeDirection.toVec heartModel
        elapsed1 with e | result
    · exfalso
      simp [updateSection, hvd, hm, hc, he2] at h1v
    · have hres : result.isValid = true := by
        simpa [updateSection, hvd, hm, hc, he2] using h1v
      have htime : result.calculationTime = elapsed1 := by
        rcases hpl : fromPointAndNormalE sq probePosition.toVec probeDirection.toVec
          with e | pl
        · simp only [computeSection, hpl] at he2
          exact Except.noConfusion he2
        · simp only [computeSection, hpl, Except.ok.injEq] at he2
          rw [← he2]
      refine ⟨?_, ?_⟩ <;>
        simp [updateSection, hvd, hm, hc, he2, hres, mapGet_mapSet_self, htime, he]
  · -- first call is a cache hit
    refine ⟨?_, ?_⟩ <;> simp [updateSection, hvd, hm, hc]

/-- The C3 witness mesh: one triangle straddling the cutting plane, so the
first call is valid and cached. -/
def c3HitMesh : List (List Vector3) := [[⟨0, 0, -1⟩, ⟨2, 0, 1⟩, ⟨0, 2, 1⟩]]

/-- Witness for C3 (amended) on a fresh service: the first call is valid,
the second identical call is served from the cache with calculationTime 0. -/
theorem c3_witness :
    (updateSection id
        (updateSection id initialState 1 (JsVec3.fin 0 0 0) (JsVec3.fin 0 0 1) c3HitMesh).2
        5 (JsVec3.fin 0 0 0) (JsVec3.fin 0 0 1) c3HitMesh).1.fromCache = true ∧
    (updateSection id
        (updateSection id initialState 1 (JsVec3.fin 0 0 0) (JsVec3.fin 0 0 1) c3HitMesh).2
        5 (JsVec3.fin 0 0 0) (JsVec3.fin 0 0 1) c3HitMesh).1.calculationTime ≤
      (updateSection id initialState 1 (JsVec3.fin 0 0 0) (JsVec3.fin 0 0 1)
        c3HitMesh).1.calculationTime :=
  c3_theorem id initialState 1 5 (JsVec3.fin 0 0 0) (JsVec3.fin 0 0 1) c3HitMesh
    (by norm_num [c3HitMesh, updateSection, initialState, isValidVector, JsVec3.fin,
      JsNum.isNaN, JsNum.isFinite, generateCacheKey, JsVec3.toVec, JsNum.toRat, toFixed4,
      mapGet, mapSet, computeSection, fromPointAndNormalE, planeMk, Vector3.normalize,
      Vector3.length, Vector3.lengthSq, Vector3.dot, calculateIntersectionLines,
      optimizeTriangleOrder, calculateTriangleIntersection, calculateEdgeIntersection,
      Plane.distanceToPoint, tol10, List.filterMap_cons, List.filterMap_nil, Option.toList])
    (by norm_num)

/-! ### Claim C1 -/

/-- The claim-side accumulation (from the spec sentence): run
TriangleIntersection.planeTriangleIntersection with the default tolerance on
every triangle of the mesh in order and keep exactly the 2-point segments. -/
def specSegments (plane : Plane) (heartModel : List (List Vector3)) : List (List Vector3) :=
  heartModel.filterMap fun t =>
    match t with
    | [a, b, c] =>
      let r := planeTriangleIntersection plane (a, b, c)
      if r.length = 2 then some r else none
    | _ => none

/-- The service's inline edge point agrees with TriangleIntersection's
parametric point (the two t formulas are equal). -/
theorem rtu_point_eq (a b : Vector3) (da db : ℚ) :
    (⟨a.x + -da / (db - da) * (b.x - a.x),
      a.y + -da / (db - da) * (b.y - a.y),
      a.z + -da / (db - da) * (b.z - a.z)⟩ : Vector3) = edgePoint a b da db := by
  have ht : -da / (db - da) = da / (da - db) := by
    rw [show da - db = -(db - da) from by ring, div_neg, neg_div]
  simp only [edgePoint, Vector3.add, Vector3.subtract, Vector3.multiplyScalar, ht,
    Vector3.mk.injEq]
  refine ⟨by ring, by ring, by ring⟩

/-- Away from the tolerance band, the service's calculateEdgeIntersection is
exactly the sign-change crossing with TriangleIntersection's point. -/
theorem calculateEdgeIntersection_far (plane : Plane) (a b : Vector3)
    (ha : ¬ |plane.distanceToPoint a| < tol10) (hb : ¬ |plane.distanceToPoint b| < tol10) :
    calculateEdgeIntersection plane a b =
      if plane.distanceToPoint a * plane.distanceToPoint b < 0 then
        some (edgePoint a b (plane.distanceToPoint a) (plane.distanceToPoint b))
      else none := by
  have hna : plane.distanceToPoint a ≠ 0 := by
    intro h; apply ha; rw [h]; norm_num [tol10]
  have hnb : plane.distanceToPoint b ≠ 0 := by
    intro h; apply hb; rw [h]; norm_num [tol10]
  by_cases hp : plane.distanceToPoint a * plane.distanceToPoint b > 0
  · have hnlt : ¬ (plane.distanceToPoint a * plane.distanceToPoint b < 0) := lt_asymm hp
    simp [calculateEdgeIntersection, hp, hnlt]
  · have hlt : plane.distanceToPoint a * plane.distanceToPoint b < 0 :=
      lt_of_le_of_ne (not_lt.1 hp) (mul_ne_zero hna hnb)
    simp only [calculateEdgeIntersection, if_neg hp, if_neg ha, if_neg hb, if_pos hlt]
    rw [rtu_point_eq]

/-- Away from the tolerance band, the service's per-triangle routine keeps a
triangle exactly when TriangleIntersection yields a 2-point result, and then
returns that same segment. -/
theorem calculateTriangleIntersection_far (plane : Plane) (a b c : Vector3)
    (ha : ¬ |plane.distanceToPoint a| < tol10) (hb : ¬ |plane.distanceToPoint b| < tol10)
    (hc : ¬ |plane.distanceToPoint c| < tol10) :
    calculateTriangleIntersection plane [a, b, c] =
      (if (planeTriangleIntersection plane (a, b, c)).length = 2 then
        some (planeTriangleIntersection plane (a, b, c)) else none) := by
  have hcnt : onPlaneCount plane a b c tol10 = 0 := by
    simp [onPlaneCount, ha, hb, hc]
  have hti : planeTriangleIntersection plane (a, b, c) =
      (if plane.distanceToPoint a * plane.distanceToPoint b < 0 then
        [edgePoint a b (plane.distanceToPoint a) (plane.distanceToPoint b)] else []) ++
      (if plane.distanceToPoint b * plane.distanceToPoint c < 0 then
        [edgePoint b c (plane.distanceToPoint b) (plane.distanceToPoint c)] else []) ++
      (if plane.distanceToPoint c * plane.distanceToPoint a < 0 then
        [edgePoint c a (plane.distanceToPoint c) (plane.distanceToPoint a)] else []) := by
    simp only [planeTriangleIntersection, hcnt]
    norm_num
  have he01 := calculateEdgeIntersection_far plane a b ha hb
  have he12 := calculateEdgeIntersection_far plane b c hb hc
  have he20 := calculateEdgeIntersection_far plane c a hc ha
  have hcomm : (plane.distanceToPoint a * plane.distanceToPoint c < 0) ↔
      (plane.distanceToPoint c * plane.distanceToPoint a < 0) := by rw [mul_comm]
  by_cases h01 : plane.distanceToPoint a * plane.distanceToPoint b < 0 <;>
    by_cases h12 : plane.distanceToPoint b * plane.distanceToPoint c < 0 <;>
    by_cases h20 : plane.distanceToPoint c * plane.distanceToPoint a < 0 <;>
    simp [calculateTriangleIntersection, he01, he12, he20, hti, h01, h12, h20, hcomm]

/-- Away from the tolerance band, the service's intersection scan over a
mesh of proper triangles equals the claim-side TriangleIntersection scan. -/
theorem calculateIntersectionLines_eq_spec (plane : Plane)
    (heartModel : List (List Vector3)) :
    (∀ t ∈ heartModel, t.length = 3) →
    (∀ t ∈ heartModel, ∀ v ∈ t, ¬ |plane.distanceToPoint v| < tol10) →
    calculateIntersectionLines plane heartModel = specSegments plane heartModel := by
  induction heartModel with
  | nil => intro _ _; rfl
  | cons t rest ih =>
    intro htri hfar
    obtain ⟨a, b, c, rfl⟩ := List.length_eq_three.1 (htri t (List.mem_cons_self t rest))
    have hfa := hfar _ (List.mem_cons_self _ rest) a (by simp)
    have hfb := hfar _ (List.mem_cons_self _ rest) b (by simp)
    have hfc := hfar _ (List.mem_cons_self _ rest) c (by simp)
    have hrest := ih (fun x hx => htri x (List.mem_cons_of_mem _ hx))
      (fun x hx => hfar x (List.mem_cons_of_mem _ hx))
    simp only [calculateIntersectionLines, optimizeTriangleOrder, specSegments,
      List.filterMap_cons] at hrest ⊢
    rw [calculateTriangleIntersection_far plane a b c hfa hfb hfc]
    by_cases hr : (planeTriangleIntersection plane (a, b, c)).length = 2 <;>
      simp [hr, hrest]

/-- The mesh of the C1 counterexample: one triangle with the vertex (0,0,0)
exactly on the cutting plane and the opposite edge crossing it. -/
def c1BadMesh : List (List Vector3) := [[⟨0, 0, 0⟩, ⟨0, 1, 1⟩, ⟨0, 1, -1⟩]]

/-- Counterexample to C1 as stated: a valid pose, a non-empty mesh and a
cache miss for which updateSection returns no lines while the
TriangleIntersection scan of the same cutting plane yields one 2-point
segment — the service's inline routine pushes the on-plane vertex for both
incident edges, gets 3 points, and discards the triangle. -/
theorem c1_counterexample :
    isValidVector (JsVec3.fin 0 0 0) = true ∧
    isValidVector (JsVec3.fin 0 0 1) = true ∧
    c1BadMesh.length ≠ 0 ∧
    mapGet initialState.cache
      (generateCacheKey (JsVec3.fin 0 0 0).toVec (JsVec3.fin 0 0 1).toVec c1BadMesh)
      = none ∧
    fromPointAndNormalE id (JsVec3.fin 0 0 0).toVec (JsVec3.fin 0 0 1).toVec =
      .ok ⟨⟨0, 0, 1⟩, 0⟩ ∧
    (updateSection id initialState 1 (JsVec3.fin 0 0 0) (JsVec3.fin 0 0 1)
      c1BadMesh).1.lines = [] ∧
    specSegments ⟨⟨0, 0, 1⟩, 0⟩ c1BadMesh = [[⟨0, 0, 0⟩, ⟨0, 1, 0⟩]] := by
  refine ⟨rfl, rfl, by norm_num [c1BadMesh], by simp [initialState, mapGet], ?_, ?_, ?_⟩ <;>
    norm_num [c1BadMesh, updateSection, initialState, isValidVector, JsVec3.fin, JsNum.isNaN,
      JsNum.isFinite, generateCacheKey, JsVec3.toVec, JsNum.toRat, toFixed4, mapGet, mapSet,
      computeSection, fromPointAndNormalE, planeMk, Vector3.normalize, Vector3.length,
      Vector3.lengthSq, Vector3.dot, calculateIntersectionLines, optimizeTriangleOrder,
      calculateTriangleIntersection, calculateEdgeIntersection, Plane.distanceToPoint, tol10,
      List.filterMap_cons, List.filterMap_nil, Option.toList, specSegments,
      planeTriangleIntersection, onPlaneCount, abs_lt, edgePoint, Vector3.add,
      Vector3.subtract, Vector3.multiplyScalar]

/-- Claim C1 (amended): for a valid pose, non-empty mesh of proper
triangles, and a cache miss, when the cutting plane construction succeeds
and no mesh vertex lies inside the tolerance band of that plane, the lines
returned by updateSection are exactly the 2-point segments of the
TriangleIntersection scan, triangle by triangle in order. -/
theorem c1_theorem (sq : ℚ → ℚ) (st : RTUState) (elapsed : ℚ)
    (probePosition probeDirection : JsVec3) (heartModel : List (List Vector3)) (plane : Plane)
    (hpos : isValidVector probePosition = true) (hdir : isValidVector probeDirection = true)
    (hmesh : heartModel.length ≠ 0)
    (hmiss : mapGet st.cache
      (generateCacheKey probePosition.toVec probeDirection.toVec heartModel) = none)
    (hplane : fromPointAndNormalE sq probePosition.toVec probeDirection.toVec = .ok plane)
    (htri : ∀ t ∈ heartModel, t.length = 3)
    (hfar : ∀ t ∈ heartModel, ∀ v ∈ t, ¬ |plane.distanceToPoint v| < tol10) :
    (updateSection sq st elapsed probePosition probeDirection heartModel).1.lines =
      specSegments plane heartModel := by
  have hlines : (updateSection sq st elapsed probePosition probeDirection heartModel).1.lines
      = calculateIntersectionLines plane heartModel := by
    simp [updateSection, hpos, hdir, hmesh, hmiss, computeSection, hplane]
  rw [hlines]
  exact calculateIntersectionLines_eq_spec plane heartModel htri hfar

/-- The C1 witness mesh: one triangle with all vertices far from the plane. -/
def c1FarMesh : List (List Vector3) := [[⟨0, 0, -1⟩, ⟨2, 0, 1⟩, ⟨0, 2, 1⟩]]

/-- Witness for C1 (amended) at a fresh service and a mesh far from the
tolerance band: the service lines equal the TriangleIntersection scan. -/
theorem c1_witness :
    (updateSection id initialState 1 (JsVec3.fin 0 0 0) (JsVec3.fin 0 0 1)
      c1FarMesh).1.lines = specSegments ⟨⟨0, 0, 1⟩, 0⟩ c1FarMesh :=
  c1_theorem id initialState 1 (JsVec3.fin 0 0 0) (JsVec3.fin 0 0 1) c1FarMesh
    ⟨⟨0, 0, 1⟩, 0⟩ rfl rfl (by norm_num [c1FarMesh]) (by simp [initialState, mapGet])
    (by norm_num [fromPointAndNormalE, planeMk, Vector3.normalize, Vector3.length,
      Vector3.lengthSq, Vector3.dot, JsVec3.toVec, JsNum.toRat, JsVec3.fin])
    (by intro t ht; simp only [c1FarMesh, List.mem_singleton] at ht; subst ht; rfl)
    (by intro t ht v hv
        simp only [c1FarMesh, List.mem_singleton] at ht
        subst ht
        simp only [List.mem_cons, List.not_mem_nil, or_false] at hv
        rcases hv with rfl | rfl | rfl <;>
          norm_num [Plane.distanceToPoint, Vector3.dot, tol10, abs_lt])

end EchoSim
